import Mathlib

/-!
Verification development for the weather_app recommendation engine.

This file gives a shallow embedding of the rule-evaluation core of the
repository: the recommendation derivation logic of src/recommendations.py
(class RecommendationEngine) and the forecast aggregation of
src/weather_service.py (WeatherService._parse_forecast), together with the
threshold tables of src/config.py.

Modelling conventions:
- Python floats are modelled as exact rationals.
- A missing forecast (None) and an empty forecast list are modelled both as
  the empty list; the source only ever tests the forecast for truthiness,
  slices it and folds over it, and None and the empty list behave alike
  under all three.
- The current month (datetime.now().month in the source) is passed as an
  explicit argument, so that each evaluation is a pure function.
- Python sequential list.append/extend calls are embedded as list
  concatenation in the exact order the source performs the appends.
- The calendar date of a raw forecast reading (dt.date() in the source) is
  carried directly as a natural-number field of the reading.
- Numeric formatting in message strings mirrors the one-decimal fixed
  rendering of the format specifiers in the source, rounding half away from the
  midpoint at floor(10q + 1/2).
-/

set_option maxRecDepth 8000

attribute [local semireducible] Rat.add Rat.mul Rat.inv Rat.sub

/-!
String helpers: Python substring containment (the in operator) and
str.lower, restricted to the character-by-character behaviour used on the
condition-category strings of the source.
-/

/-- Character-list version of string startswith. -/
def chPre : List Char → List Char → Bool
  | [], _ => true
  | _ :: _, [] => false
  | a :: as, b :: bs => a == b && chPre as bs

/-- Character-list version of substring containment. -/
def chSub (sub : List Char) : List Char → Bool
  | [] => sub.isEmpty
  | c :: rest => chPre sub (c :: rest) || chSub sub rest

/-- Python sub in s for strings. -/
def strContains (s sub : String) : Bool := chSub sub.data s.data

/-- Python str.lower, character by character. -/
def lowerStr (s : String) : String := String.mk (s.data.map Char.toLower)

/-- One-decimal fixed rendering of a rational, modelling the f-string
format specifier .1f of the source. -/
def fmt1 (q : ℚ) : String :=
  let t : Int := ⌊q * 10 + 1 / 2⌋
  let a := t.natAbs
  (if t < 0 then "-" else "") ++ toString (a / 10) ++ "." ++ toString (a % 10)

/-- Python min over a list of numbers (the source only applies it to
nonempty lists; the empty case is given the junk value 0). -/
def qmin : List ℚ → ℚ
  | [] => 0
  | [x] => x
  | x :: y :: t => min x (qmin (y :: t))

/-- Python max over a list of numbers (the source only applies it to
nonempty lists; the empty case is given the junk value 0). -/
def qmax : List ℚ → ℚ
  | [] => 0
  | [x] => x
  | x :: y :: t => max x (qmax (y :: t))

/-!
Data model: the normalized weather snapshot produced by
WeatherService._parse_current_weather, the per-timestamp forecast reading
and the aggregated forecast day produced by WeatherService._parse_forecast,
and the alert records built by the recommendation engine.
-/

/-- Current-conditions snapshot: the fields of the dictionary built by
_parse_current_weather that the recommendation engine reads. humidity is
an integer percentage in the provider schema; sunrise/sunset carry the
already-formatted local time of day and are None when absent. -/
structure WeatherData where
  temperature : ℚ
  wind_speed : ℚ
  humidity : Int
  rain_1h : ℚ
  rain_3h : ℚ
  main : String
  sunrise : Option String
  sunset : Option String
  deriving DecidableEq, Repr

/-- One raw per-timestamp forecast reading, as grouped by
_parse_forecast: the calendar date derived from the timestamp plus the
per-reading measurements kept in the daily_data lists. -/
structure Reading where
  date : Nat
  temperature : ℚ
  feels_like : ℚ
  humidity : ℚ
  pressure : ℚ
  wind_speed : ℚ
  description : String
  main : String
  icon : String
  clouds : ℚ
  rain : ℚ
  snow : ℚ
  deriving DecidableEq, Repr

/-- Aggregated daily forecast entry, as built by _parse_forecast. -/
structure ForecastDay where
  date : Nat
  temp_min : ℚ
  temp_max : ℚ
  temp_avg : ℚ
  humidity_avg : ℚ
  wind_speed_max : ℚ
  total_rain : ℚ
  total_snow : ℚ
  description : String
  icon : String
  details : List Reading
  deriving DecidableEq, Repr

/-- Alert record: the dictionaries appended to the alerts lists by the
recommendation engine. -/
structure Alert where
  type : String
  title : String
  message : String
  severity : String
  deriving DecidableEq, Repr

/-- Agriculture thresholds, Config.AGRICULTURE_THRESHOLDS. -/
structure AgricultureThresholds where
  wind_speed_spray : ℚ
  rain_threshold : ℚ
  frost_temp : ℚ
  heat_stress : ℚ
  high_humidity : ℚ
  deriving DecidableEq, Repr

/-- Travel thresholds, Config.TRAVEL_THRESHOLDS. -/
structure TravelThresholds where
  cold_weather : ℚ
  hot_weather : ℚ
  rain_warning : ℚ
  wind_warning : ℚ
  deriving DecidableEq, Repr

/-- The default agriculture threshold table of src/config.py. -/
def AGRICULTURE_THRESHOLDS : AgricultureThresholds :=
  { wind_speed_spray := 20, rain_threshold := 10, frost_temp := 2
    heat_stress := 35, high_humidity := 80 }

/-- The default travel threshold table of src/config.py. -/
def TRAVEL_THRESHOLDS : TravelThresholds :=
  { cold_weather := 10, hot_weather := 30, rain_warning := 5, wind_warning := 40 }

/-- Agriculture recommendation bundle returned by
get_agriculture_recommendations. -/
structure AgricultureBundle where
  alerts : List Alert
  recommendations : List String
  tasks : List String
  suitable_activities : List String
  crop_advice : List String
  deriving DecidableEq, Repr

/-- Travel recommendation bundle returned by get_travel_recommendations. -/
structure TravelBundle where
  alerts : List Alert
  recommendations : List String
  packing_list : List String
  travel_outlook : String
  best_times : List String
  deriving DecidableEq, Repr

/-!
Forecast Aggregator: WeatherService._parse_forecast. The source groups the
raw readings into a dict keyed by calendar date (each key holding the
readings of that date in input order), then aggregates
sorted(daily_data.items())[:days].
-/

/-- The distinct calendar dates present in the raw readings (the key set of
the daily_data dict). -/
def dates_of (l : List Reading) : List Nat := (l.map (·.date)).dedup

/-- The readings of one calendar date, in input order (one value list of
the daily_data dict). -/
def readings_on (l : List Reading) (d : Nat) : List Reading :=
  l.filter (fun r => r.date == d)

/-- Junk reading used as the default of positional indexing; the source
indexes items[len(items)//2] only on nonempty groups. -/
def default_reading : Reading :=
  { date := 0, temperature := 0, feels_like := 0, humidity := 0, pressure := 0
    wind_speed := 0, description := "", main := "", icon := "", clouds := 0
    rain := 0, snow := 0 }

/-- Aggregation of the readings of one day into a ForecastDay: the dictionary
built in the second loop of _parse_forecast. -/
def aggregate_day (d : Nat) (items : List Reading) : ForecastDay :=
  let temps := items.map (·.temperature)
  let n : ℚ := (items.length : ℚ)
  let mid := items.getD (items.length / 2) default_reading
  { date := d
    temp_min := qmin temps
    temp_max := qmax temps
    temp_avg := temps.sum / n
    humidity_avg := (items.map (·.humidity)).sum / n
    wind_speed_max := qmax (items.map (·.wind_speed))
    total_rain := (items.map (·.rain)).sum
    total_snow := (items.map (·.snow)).sum
    description := mid.description
    icon := mid.icon
    details := items }

/-- WeatherService._parse_forecast: group by calendar date, aggregate each
readings of each date, sort the dates ascending and keep the first days entries. -/
def parse_forecast (l : List Reading) (days : Nat) : List ForecastDay :=
  ((List.insertionSort (· ≤ ·) (dates_of l)).take days).map
    (fun d => aggregate_day d (readings_on l d))

/-!
Agriculture Rule Evaluator:
RecommendationEngine.get_agriculture_recommendations. The method appends
into its alerts, recommendations and tasks lists in a fixed textual order;
each rule below is one contiguous block of those appends, and the bundle
concatenates the blocks in the order the source executes them.
-/

/-- Wind rule, alert part (lines 39-45 of src/recommendations.py). -/
def ag_wind_alerts (th : AgricultureThresholds) (w : WeatherData) : List Alert :=
  if w.wind_speed > th.wind_speed_spray then
    [{ type := "warning", title := "⚠️ High Wind Alert"
       message := "Wind speed is " ++ fmt1 w.wind_speed ++ " km/h. Avoid pesticide/fertilizer spraying."
       severity := "high" }]
  else []

/-- Wind rule, task part: a task is appended in both branches. -/
def ag_wind_tasks (th : AgricultureThresholds) (w : WeatherData) : List String :=
  if w.wind_speed > th.wind_speed_spray then
    ["Postpone spraying operations until wind subsides"]
  else
    ["✓ Good conditions for spraying operations"]

/-- Temperature rule, alert part: frost test first, heat-stress only in the
elif branch. -/
def ag_temp_alerts (th : AgricultureThresholds) (w : WeatherData) : List Alert :=
  if w.temperature ≤ th.frost_temp then
    [{ type := "danger", title := "❄️ Frost Warning"
       message := "Temperature is " ++ fmt1 w.temperature ++ "°C. Protect sensitive crops from frost damage."
       severity := "critical" }]
  else if w.temperature ≥ th.heat_stress then
    [{ type := "warning", title := "🌡️ Heat Stress Alert"
       message := "High temperature " ++ fmt1 w.temperature ++ "°C may stress crops. Ensure adequate irrigation."
       severity := "high" }]
  else []

/-- Temperature rule, task part. -/
def ag_temp_tasks (th : AgricultureThresholds) (w : WeatherData) : List String :=
  if w.temperature ≤ th.frost_temp then
    ["Cover sensitive crops or use frost protection methods"]
  else if w.temperature ≥ th.heat_stress then
    ["Increase irrigation frequency"]
  else []

/-- Sum of total_rain over the first three forecast days
(the sum of total_rain over forecast[:3] in the source). -/
def upcoming_rain (forecast : List ForecastDay) : ℚ :=
  ((forecast.take 3).map (·.total_rain)).sum

/-- Rain rule, recommendation part. In the rain == 0 branch the source
first tests the forecast for truthiness; with no forecast nothing is
emitted at all. -/
def ag_rain_recs (th : AgricultureThresholds) (w : WeatherData)
    (forecast : List ForecastDay) : List String :=
  let rain := w.rain_1h + w.rain_3h
  if rain > th.rain_threshold then
    ["Heavy rainfall detected (" ++ fmt1 rain ++ "mm). Delay irrigation."]
  else if rain > 0 then
    ["Light rainfall (" ++ fmt1 rain ++ "mm) expected. Monitor soil moisture."]
  else if forecast.isEmpty then []
  else if upcoming_rain forecast > 5 then
    ["Rain expected in next 3 days (" ++ fmt1 (upcoming_rain forecast) ++ "mm). Plan irrigation accordingly."]
  else []

/-- Rain rule, task part. -/
def ag_rain_tasks (th : AgricultureThresholds) (w : WeatherData)
    (forecast : List ForecastDay) : List String :=
  let rain := w.rain_1h + w.rain_3h
  if rain > th.rain_threshold then
    ["Skip irrigation today - sufficient rainfall"]
  else if rain > 0 then []
  else if forecast.isEmpty then []
  else if upcoming_rain forecast > 5 then []
  else ["Regular irrigation recommended"]

/-- Humidity rule, alert part. -/
def ag_humidity_alerts (th : AgricultureThresholds) (w : WeatherData) : List Alert :=
  if (w.humidity : ℚ) ≥ th.high_humidity then
    [{ type := "info", title := "💧 High Humidity Alert"
       message := "Humidity at " ++ toString w.humidity ++ "%. Increased risk of fungal diseases."
       severity := "medium" }]
  else []

/-- Humidity rule, recommendation part. -/
def ag_humidity_recs (th : AgricultureThresholds) (w : WeatherData) : List String :=
  if (w.humidity : ℚ) ≥ th.high_humidity then
    ["Monitor crops for signs of fungal infection"]
  else []

/-- Humidity rule, task part. -/
def ag_humidity_tasks (th : AgricultureThresholds) (w : WeatherData) : List String :=
  if (w.humidity : ℚ) ≥ th.high_humidity then
    ["Apply preventive fungicide if needed"]
  else []

/-- RecommendationEngine._get_season on an explicit month. -/
def get_season (month : Nat) : String :=
  if month = 12 ∨ month = 1 ∨ month = 2 then "winter"
  else if month = 3 ∨ month = 4 ∨ month = 5 then "spring"
  else if month = 6 ∨ month = 7 ∨ month = 8 then "summer"
  else "autumn"

/-- RecommendationEngine._get_crop_advice: the crop_calendar lookup with
default []. -/
def get_crop_advice (season : String) : List String :=
  if season = "spring" then
    ["Good time for planting summer crops like corn, cotton, and vegetables",
     "Prepare soil with organic matter",
     "Monitor for late frost warnings"]
  else if season = "summer" then
    ["Focus on irrigation management",
     "Monitor for heat stress in crops",
     "Good time for harvesting wheat and early crops"]
  else if season = "autumn" then
    ["Plant winter crops like wheat, barley",
     "Harvest summer crops",
     "Prepare fields for winter"]
  else if season = "winter" then
    ["Protect crops from frost",
     "Plan for spring planting",
     "Maintain irrigation systems"]
  else []

/-- RecommendationEngine._get_suitable_farm_activities: a first-match-wins
if/elif chain over rain_1h, wind speed and temperature. -/
def get_suitable_farm_activities (w : WeatherData) : List String :=
  let rain := w.rain_1h
  if rain < 1 ∧ w.wind_speed < 20 ∧ 10 ≤ w.temperature ∧ w.temperature ≤ 30 then
    ["Pesticide/fertilizer application", "Harvesting", "Field preparation",
     "Planting", "Equipment maintenance"]
  else if rain < 1 ∧ w.wind_speed < 20 then
    ["Harvesting (if crops are ready)", "Equipment maintenance",
     "Storage management"]
  else if rain ≥ 1 then
    ["Indoor activities only", "Planning and paperwork",
     "Equipment cleaning and maintenance"]
  else []

/-- RecommendationEngine.get_agriculture_recommendations: the bundle
assembled from the rule blocks in source order. -/
def get_agriculture_recommendations (th : AgricultureThresholds) (month : Nat)
    (w : WeatherData) (forecast : List ForecastDay) : AgricultureBundle :=
  { alerts := ag_wind_alerts th w ++ ag_temp_alerts th w ++ ag_humidity_alerts th w
    recommendations := ag_rain_recs th w forecast ++ ag_humidity_recs th w
      ++ get_crop_advice (get_season month)
    tasks := ag_wind_tasks th w ++ ag_temp_tasks th w ++ ag_rain_tasks th w forecast
      ++ ag_humidity_tasks th w
    suitable_activities := get_suitable_farm_activities w
    crop_advice := get_crop_advice (get_season month) }

/-!
Travel Rule Evaluator: RecommendationEngine.get_travel_recommendations,
decomposed into the contiguous append blocks of the source, plus the
forecast-analysis and best-times helpers.
-/

/-- Temperature-based packing (three-way if/elif/else). -/
def travel_temp_packing (th : TravelThresholds) (w : WeatherData) : List String :=
  if w.temperature ≤ th.cold_weather then
    ["Warm jacket", "Gloves", "Scarf", "Thermal wear"]
  else if w.temperature ≥ th.hot_weather then
    ["Sunscreen", "Hat", "Sunglasses", "Light clothing", "Water bottle"]
  else
    ["Light jacket", "Comfortable clothing"]

/-- Temperature-based recommendation texts (the else branch appends none). -/
def travel_temp_recs (th : TravelThresholds) (w : WeatherData) : List String :=
  if w.temperature ≤ th.cold_weather then
    ["Cold weather (" ++ fmt1 w.temperature ++ "°C). Pack warm clothing."]
  else if w.temperature ≥ th.hot_weather then
    ["Hot weather (" ++ fmt1 w.temperature ++ "°C). Stay hydrated and use sun protection."]
  else []

/-- Rain branch guard: rain above the warning threshold, or the lowercased
condition-category string containing rain. -/
def travel_rain_hit (th : TravelThresholds) (w : WeatherData) : Bool :=
  decide (w.rain_1h + w.rain_3h > th.rain_warning)
    || strContains (lowerStr w.main) ("rain")

/-- Rain branch, alert part. -/
def travel_rain_alerts (th : TravelThresholds) (w : WeatherData) : List Alert :=
  if travel_rain_hit th w then
    [{ type := "warning", title := "☔ Rain Expected"
       message := "Pack rain gear and plan indoor activities."
       severity := "medium" }]
  else []

/-- Rain branch, packing-list additions. -/
def travel_rain_packing (th : TravelThresholds) (w : WeatherData) : List String :=
  if travel_rain_hit th w then ["Umbrella", "Raincoat", "Waterproof bag"] else []

/-- Rain branch, recommendation part. -/
def travel_rain_recs (th : TravelThresholds) (w : WeatherData) : List String :=
  if travel_rain_hit th w then ["Consider indoor attractions or activities"] else []

/-- Wind branch, alert part. -/
def travel_wind_alerts (th : TravelThresholds) (w : WeatherData) : List Alert :=
  if w.wind_speed > th.wind_warning then
    [{ type := "warning", title := "💨 Strong Winds"
       message := "Wind speed " ++ fmt1 w.wind_speed ++ " km/h. Be cautious outdoors."
       severity := "high" }]
  else []

/-- Wind branch, recommendation part. -/
def travel_wind_recs (th : TravelThresholds) (w : WeatherData) : List String :=
  if w.wind_speed > th.wind_warning then
    ["Avoid outdoor activities in exposed areas"]
  else []

/-- Condition-category branch, alert part: first match among
clear/sun (no alert), storm/thunder, fog/mist. -/
def travel_cond_alerts (w : WeatherData) : List Alert :=
  let d := lowerStr w.main
  if strContains d ("clear") || strContains d ("sun") then []
  else if strContains d ("storm") || strContains d ("thunder") then
    [{ type := "danger", title := "⛈️ Storm Warning"
       message := "Severe weather expected. Stay indoors if possible."
       severity := "critical" }]
  else if strContains d ("fog") || strContains d ("mist") then
    [{ type := "info", title := "🌫️ Poor Visibility"
       message := "Fog/mist conditions. Drive carefully."
       severity := "medium" }]
  else []

/-- Condition-category branch, recommendation part. -/
def travel_cond_recs (w : WeatherData) : List String :=
  let d := lowerStr w.main
  if strContains d ("clear") || strContains d ("sun") then
    ["Perfect weather for sightseeing and outdoor activities!"]
  else if strContains d ("storm") || strContains d ("thunder") then
    ["Postpone outdoor plans. Seek shelter."]
  else if strContains d ("fog") || strContains d ("mist") then
    ["Exercise caution while driving. Allow extra travel time."]
  else []

/-- All recommendation texts produced from the current conditions alone
(everything appended before the forecast-summary step). -/
def travel_current_recs (th : TravelThresholds) (w : WeatherData) : List String :=
  travel_temp_recs th w ++ travel_rain_recs th w ++ travel_wind_recs th w
    ++ travel_cond_recs w

/-- Result record of _analyze_forecast_for_travel. -/
structure ForecastSummary where
  summary : String
  outlook : String
  deriving DecidableEq, Repr

/-- RecommendationEngine._analyze_forecast_for_travel. -/
def analyze_forecast_for_travel (forecast : List ForecastDay) : ForecastSummary :=
  if forecast.isEmpty then
    { summary := "No forecast data available", outlook := "unknown" }
  else
    let total_rain := (forecast.map (·.total_rain)).sum
    let avg_temp := (forecast.map (·.temp_avg)).sum / (forecast.length : ℚ)
    let max_wind := qmax (forecast.map (·.wind_speed_max))
    if total_rain > 20 ∨ max_wind > 50 then
      { summary := "Challenging weather ahead. Consider rescheduling outdoor activities."
        outlook := "poor" }
    else if total_rain < 5 ∧ 15 ≤ avg_temp ∧ avg_temp ≤ 28 then
      { summary := "Excellent weather forecast for the next few days!"
        outlook := "excellent" }
    else
      { summary := "Fair weather expected. Pack accordingly."
        outlook := "fair" }

/-- RecommendationEngine._get_best_travel_times: sunrise/sunset suggestions
when present plus a temperature-conditioned suggestion. The forecast
argument is accepted and ignored, as in the source. -/
def get_best_travel_times (w : WeatherData) (forecast : List ForecastDay) : List String :=
  (match w.sunrise with
   | some t => ["Sunrise at " ++ t ++ " - Great for photography"]
   | none => []) ++
  (match w.sunset with
   | some t => ["Sunset at " ++ t ++ " - Beautiful evening views"]
   | none => []) ++
  (if w.temperature > 30 then
    ["Visit outdoor attractions early morning or late evening to avoid heat"]
   else if w.temperature < 10 then
    ["Midday (11 AM - 3 PM) will be warmest for outdoor activities"]
   else [])

/-- RecommendationEngine.get_travel_recommendations: the bundle assembled
from the branch blocks in source order; the forecast summary and outlook
are only consulted when the forecast is truthy, with outlook defaulting
to good. -/
def get_travel_recommendations (th : TravelThresholds) (w : WeatherData)
    (forecast : List ForecastDay) : TravelBundle :=
  { alerts := travel_rain_alerts th w ++ travel_wind_alerts th w ++ travel_cond_alerts w
    recommendations := travel_current_recs th w
      ++ (if forecast.isEmpty then [] else [(analyze_forecast_for_travel forecast).summary])
    packing_list := travel_temp_packing th w ++ travel_rain_packing th w
    travel_outlook := if forecast.isEmpty then "good"
      else (analyze_forecast_for_travel forecast).outlook
    best_times := get_best_travel_times w forecast }

/-!
Concrete inputs used by the theorems below, and the specification
predicate for the daily aggregation.
-/

/-- The aggregation contract of one result entry: its group is the
readings of its date, nonempty; min/max fields are members of the group
that bound it, averages are arithmetic means, totals are sums, and the
description is sampled at the midpoint index of the group. -/
def day_stats_ok (l : List Reading) (fd : ForecastDay) : Prop :=
  let g := readings_on l fd.date
  g ≠ [] ∧
  fd.temp_min ∈ g.map (·.temperature) ∧
  (∀ x ∈ g.map (·.temperature), fd.temp_min ≤ x) ∧
  fd.temp_max ∈ g.map (·.temperature) ∧
  (∀ x ∈ g.map (·.temperature), x ≤ fd.temp_max) ∧
  fd.temp_avg = (g.map (·.temperature)).sum / (g.length : ℚ) ∧
  fd.humidity_avg = (g.map (·.humidity)).sum / (g.length : ℚ) ∧
  fd.wind_speed_max ∈ g.map (·.wind_speed) ∧
  (∀ x ∈ g.map (·.wind_speed), x ≤ fd.wind_speed_max) ∧
  fd.total_rain = (g.map (·.rain)).sum ∧
  fd.total_snow = (g.map (·.snow)).sum ∧
  fd.description = (g.getD (g.length / 2) default_reading).description ∧
  fd.details = g

/-- A recommendation text that announces upcoming rain (the rain-rule
advisory built from the three-day forecast sum). -/
def mentions_upcoming_rain (r : String) : Prop :=
  strContains r ("Plan irrigation accordingly") = true

/-- Shorthand for building a forecast reading in examples. -/
def mk_reading (d : Nat) (t h ws r : ℚ) (desc : String) : Reading :=
  { date := d, temperature := t, feels_like := t, humidity := h, pressure := 1000
    wind_speed := ws, description := desc, main := desc, icon := "01d"
    clouds := 0, rain := r, snow := 0 }

/-- Frost scenario snapshot: temperature -5, calm and dry. -/
def frost_snapshot : WeatherData :=
  { temperature := -5, wind_speed := 5, humidity := 50, rain_1h := 0, rain_3h := 0
    main := "Clear", sunrise := none, sunset := none }

/-- Calm dry snapshot with rain exactly 0, used against an empty forecast. -/
def calm_snapshot : WeatherData :=
  { temperature := 20, wind_speed := 5, humidity := 50, rain_1h := 0, rain_3h := 0
    main := "Clouds", sunrise := none, sunset := none }

/-- Heavy-rain snapshot: trailing rain 12 mm, above the 10 mm threshold. -/
def heavy_rain_snapshot : WeatherData :=
  { temperature := 20, wind_speed := 5, humidity := 50, rain_1h := 12, rain_3h := 0
    main := "Rain", sunrise := none, sunset := none }

/-- Windy dry snapshot: rain_1h 0, wind 25, temperature 20. -/
def windy_snapshot : WeatherData :=
  { temperature := 20, wind_speed := 25, humidity := 50, rain_1h := 0, rain_3h := 0
    main := "Clouds", sunrise := none, sunset := none }

/-- Mild snapshot: rain_1h 0, wind 10, temperature 20. -/
def mild_snapshot : WeatherData :=
  { temperature := 20, wind_speed := 10, humidity := 50, rain_1h := 0, rain_3h := 0
    main := "Clouds", sunrise := none, sunset := none }

/-- Storm scenario snapshot: wind 60, storm condition category,
temperature 20, no trailing rain. -/
def storm_snapshot : WeatherData :=
  { temperature := 20, wind_speed := 60, humidity := 50, rain_1h := 0, rain_3h := 0
    main := "Storm", sunrise := none, sunset := none }

/-- One rainy forecast day whose total rain alone exceeds 20 mm. -/
def rainy_day : ForecastDay :=
  { date := 0, temp_min := 10, temp_max := 20, temp_avg := 15, humidity_avg := 50
    wind_speed_max := 10, total_rain := 25, total_snow := 0
    description := "rain", icon := "10d", details := [] }

/-- A mild forecast day with 2 mm of rain, used for the upcoming-rain sum. -/
def mild_day : ForecastDay :=
  { date := 0, temp_min := 10, temp_max := 20, temp_avg := 15, humidity_avg := 50
    wind_speed_max := 10, total_rain := 2, total_snow := 0
    description := "clouds", icon := "04d", details := [] }

/-- Eight three-hourly readings spanning two calendar days, four each. -/
def sample_readings : List Reading :=
  [mk_reading 0 10 50 5 0 ("r00"), mk_reading 0 12 52 7 1 ("r01"),
   mk_reading 0 16 54 9 0 ("r02"), mk_reading 0 14 56 6 2 ("r03"),
   mk_reading 1 8 60 4 0 ("r10"), mk_reading 1 11 62 12 0 ("r11"),
   mk_reading 1 15 64 8 3 ("r12"), mk_reading 1 13 66 10 0 ("r13")]

/-- The first aggregated day of sample_readings. -/
def sample_day0 : ForecastDay :=
  (parse_forecast sample_readings 5).getD 0 (aggregate_day 0 [])

/-- A single reading forming a degenerate one-element group. -/
def solo_reading : Reading := mk_reading 3 21 40 6 0 ("solo")

/-- Readings on five distinct dates supplied out of date order. -/
def scrambled_readings : List Reading :=
  [mk_reading 5 10 50 5 0 ("d5"), mk_reading 2 11 50 5 0 ("d2"),
   mk_reading 4 12 50 5 0 ("d4"), mk_reading 1 13 50 5 0 ("d1"),
   mk_reading 3 14 50 5 0 ("d3")]

/-!
Helper lemmas about the component blocks.
-/

/-- Python min of a nonempty list is a member. -/
theorem qmin_mem : ∀ (l : List ℚ), l ≠ [] → qmin l ∈ l
  | [], h => absurd rfl h
  | [x], _ => by simp [qmin]
  | x :: y :: t, _ => by
      have ih := qmin_mem (y :: t) (by simp)
      rcases le_total x (qmin (y :: t)) with h | h
      · simp [qmin, min_eq_left h]
      · simp only [qmin, min_eq_right h]
        exact List.mem_cons_of_mem x ih

/-- Python min of a list bounds every member from below. -/
theorem qmin_le : ∀ (l : List ℚ) (x : ℚ), x ∈ l → qmin l ≤ x
  | [], _, h => absurd h (List.not_mem_nil _)
  | [y], x, h => by
      rcases List.mem_singleton.mp h with rfl; simp [qmin]
  | y :: z :: t, x, h => by
      rcases List.mem_cons.mp h with rfl | h2
      · simpa [qmin] using min_le_left _ _
      · have ih := qmin_le (z :: t) x h2
        simpa [qmin] using Or.inr ih

/-- Python max of a nonempty list is a member. -/
theorem qmax_mem : ∀ (l : List ℚ), l ≠ [] → qmax l ∈ l
  | [], h => absurd rfl h
  | [x], _ => by simp [qmax]
  | x :: y :: t, _ => by
      have ih := qmax_mem (y :: t) (by simp)
      rcases le_total x (qmax (y :: t)) with h | h
      · simp only [qmax, max_eq_right h]
        exact List.mem_cons_of_mem x ih
      · simp [qmax, max_eq_left h]

/-- Python max of a list bounds every member from above. -/
theorem le_qmax : ∀ (l : List ℚ) (x : ℚ), x ∈ l → x ≤ qmax l
  | [], _, h => absurd h (List.not_mem_nil _)
  | [y], x, h => by
      rcases List.mem_singleton.mp h with rfl; simp [qmax]
  | y :: z :: t, x, h => by
      rcases List.mem_cons.mp h with rfl | h2
      · simpa [qmax] using le_max_left _ _
      · have ih := le_qmax (z :: t) x h2
        simpa [qmax] using Or.inr ih

/-- Every wind-rule alert carries the high-wind title. -/
theorem mem_ag_wind_alerts_title {th : AgricultureThresholds} {w : WeatherData}
    {a : Alert} (h : a ∈ ag_wind_alerts th w) : a.title = "⚠️ High Wind Alert" := by
  unfold ag_wind_alerts at h
  split at h <;> simp_all

/-- Every humidity-rule alert carries the high-humidity title. -/
theorem mem_ag_humidity_alerts_title {th : AgricultureThresholds} {w : WeatherData}
    {a : Alert} (h : a ∈ ag_humidity_alerts th w) : a.title = "💧 High Humidity Alert" := by
  unfold ag_humidity_alerts at h
  split at h <;> simp_all

/-- The wind rule emits one of its two fixed tasks. -/
theorem mem_ag_wind_tasks {th : AgricultureThresholds} {w : WeatherData}
    {s : String} (h : s ∈ ag_wind_tasks th w) :
    s = "Postpone spraying operations until wind subsides"
    ∨ s = "✓ Good conditions for spraying operations" := by
  unfold ag_wind_tasks at h
  split at h <;> simp_all

/-- The temperature rule emits one of its two fixed tasks. -/
theorem mem_ag_temp_tasks {th : AgricultureThresholds} {w : WeatherData}
    {s : String} (h : s ∈ ag_temp_tasks th w) :
    s = "Cover sensitive crops or use frost protection methods"
    ∨ s = "Increase irrigation frequency" := by
  unfold ag_temp_tasks at h
  split at h
  · simp_all
  · split at h <;> simp_all

/-- The humidity rule emits only its fixed task. -/
theorem mem_ag_humidity_tasks {th : AgricultureThresholds} {w : WeatherData}
    {s : String} (h : s ∈ ag_humidity_tasks th w) :
    s = "Apply preventive fungicide if needed" := by
  unfold ag_humidity_tasks at h
  split at h <;> simp_all

/-- The humidity rule emits only its fixed recommendation. -/
theorem mem_ag_humidity_recs {th : AgricultureThresholds} {w : WeatherData}
    {s : String} (h : s ∈ ag_humidity_recs th w) :
    s = "Monitor crops for signs of fungal infection" := by
  unfold ag_humidity_recs at h
  split at h <;> simp_all

/-- No seasonal crop-advice line announces upcoming rain. -/
theorem crop_advice_no_upcoming (month : Nat) :
    ∀ r ∈ get_crop_advice (get_season month), ¬ mentions_upcoming_rain r := by
  unfold get_season mentions_upcoming_rain
  split_ifs <;> decide

/-!
Claim theorems.
-/

/-- Claim C8: travel alert branches are independent. At wind 60 km/h,
storm condition category, temperature 20 and no trailing rain, the bundle
holds exactly the high-severity wind warning followed by the critical
storm danger alert (so no temperature, rain or fog alert), together with
the two associated advisory texts. -/
theorem travel_storm_wind_independent_alerts :
    (get_travel_recommendations TRAVEL_THRESHOLDS storm_snapshot []).alerts =
      [{ type := "warning", title := "💨 Strong Winds"
         message := "Wind speed 60.0 km/h. Be cautious outdoors."
         severity := "high" },
       { type := "danger", title := "⛈️ Storm Warning"
         message := "Severe weather expected. Stay indoors if possible."
         severity := "critical" }]
    ∧ "Avoid outdoor activities in exposed areas"
        ∈ (get_travel_recommendations TRAVEL_THRESHOLDS storm_snapshot []).recommendations
    ∧ "Postpone outdoor plans. Seek shelter."
        ∈ (get_travel_recommendations TRAVEL_THRESHOLDS storm_snapshot []).recommendations := by
  decide

/-- Claim C10: the agriculture tasks list is never empty, because the wind
rule appends a task in both of its branches. -/
theorem agriculture_tasks_nonempty (th : AgricultureThresholds) (month : Nat)
    (w : WeatherData) (forecast : List ForecastDay) :
    (get_agriculture_recommendations th month w forecast).tasks ≠ [] := by
  unfold get_agriculture_recommendations ag_wind_tasks
  split <;> simp

/-- Claim C5: travel evaluation with no forecast (None or empty, both
modelled as the empty list) yields outlook good, appends no
forecast-summary recommendation (the recommendations are exactly the
current-condition texts), and the packing, alert and best-times outputs do
not depend on the forecast at all. -/
theorem travel_empty_forecast_defaults (th : TravelThresholds) (w : WeatherData) :
    (get_travel_recommendations th w []).travel_outlook = "good"
    ∧ (get_travel_recommendations th w []).recommendations = travel_current_recs th w
    ∧ ∀ forecast : List ForecastDay,
        (get_travel_recommendations th w forecast).alerts
            = (get_travel_recommendations th w []).alerts
        ∧ (get_travel_recommendations th w forecast).packing_list
            = (get_travel_recommendations th w []).packing_list
        ∧ (get_travel_recommendations th w forecast).best_times
            = (get_travel_recommendations th w []).best_times := by
  refine ⟨rfl, by simp [get_travel_recommendations], fun forecast => ⟨rfl, rfl, rfl⟩⟩

/-- Claim C9: the public travel evaluator only ever returns the outlooks
good, poor, excellent or fair; the unknown outlook of the analysis helper
only arises on a falsy forecast, which the caller already filters out. -/
theorem travel_outlook_always_defined (th : TravelThresholds) (w : WeatherData)
    (forecast : List ForecastDay) :
    (get_travel_recommendations th w forecast).travel_outlook
        ∈ (["good", "poor", "excellent", "fair"] : List String)
    ∧ (analyze_forecast_for_travel []).outlook = "unknown" := by
  refine ⟨?_, rfl⟩
  unfold get_travel_recommendations analyze_forecast_for_travel
  by_cases he : forecast.isEmpty <;> simp only [he] <;> split_ifs <;> simp

/-- Claim C3: the suitable-activities classification is a first-match-wins
chain: calm dry mild weather gives the full five-activity set; calm dry
weather outside 10..30 °C gives the reduced set; rain at least 1 mm gives
the indoor set; dry but windy weather gives the empty set. In particular
wind 25 with rain 0 and temperature 20 yields no activity, while wind 10
yields the full set. -/
theorem suitable_activities_first_match :
    (∀ w : WeatherData,
      (w.rain_1h < 1 ∧ w.wind_speed < 20 ∧ 10 ≤ w.temperature ∧ w.temperature ≤ 30 →
        get_suitable_farm_activities w =
          ["Pesticide/fertilizer application", "Harvesting", "Field preparation",
           "Planting", "Equipment maintenance"])
      ∧ (w.rain_1h < 1 → w.wind_speed < 20 → ¬(10 ≤ w.temperature ∧ w.temperature ≤ 30) →
        get_suitable_farm_activities w =
          ["Harvesting (if crops are ready)", "Equipment maintenance",
           "Storage management"])
      ∧ (1 ≤ w.rain_1h →
        get_suitable_farm_activities w =
          ["Indoor activities only", "Planning and paperwork",
           "Equipment cleaning and maintenance"])
      ∧ (w.rain_1h < 1 → 20 ≤ w.wind_speed →
        get_suitable_farm_activities w = []))
    ∧ get_suitable_farm_activities windy_snapshot = []
    ∧ get_suitable_farm_activities mild_snapshot =
        ["Pesticide/fertilizer application", "Harvesting", "Field preparation",
         "Planting", "Equipment maintenance"] := by
  refine ⟨fun w => ⟨?_, ?_, ?_, ?_⟩, by decide, by decide⟩
  · intro h
    unfold get_suitable_farm_activities
    rw [if_pos h]
  · intro h1 h2 h3
    unfold get_suitable_farm_activities
    rw [if_neg (fun hc => h3 ⟨hc.2.2.1, hc.2.2.2⟩), if_pos ⟨h1, h2⟩]
  · intro h
    unfold get_suitable_farm_activities
    rw [if_neg (fun hc => absurd h (not_le.mpr hc.1)),
        if_neg (fun hc => absurd h (not_le.mpr hc.1)), if_pos h]
  · intro h1 h2
    unfold get_suitable_farm_activities
    rw [if_neg (fun hc => absurd h2 (not_le.mpr hc.2.1)),
        if_neg (fun hc => absurd h2 (not_le.mpr hc.2)),
        if_neg (fun hc => absurd h1 (not_lt.mpr hc))]

/-- Witness for C3 at the mild snapshot: the first branch fires and gives
the full activity set. -/
theorem suitable_activities_first_match_witness :
    mild_snapshot.rain_1h < 1 ∧ mild_snapshot.wind_speed < 20
      ∧ 10 ≤ mild_snapshot.temperature ∧ mild_snapshot.temperature ≤ 30
    ∧ get_suitable_farm_activities mild_snapshot =
        ["Pesticide/fertilizer application", "Harvesting", "Field preparation",
         "Planting", "Equipment maintenance"] := by
  refine ⟨by decide, by decide, by decide, by decide, ?_⟩
  exact (suitable_activities_first_match.1 mild_snapshot).1 (by decide)

/-- Claim C1: the agriculture temperature rule is mutually exclusive. At or
below the frost threshold the bundle holds the critical frost danger alert
and the frost-protection task, and no alert in the bundle carries the
heat-stress title; otherwise, at or above the heat-stress threshold it
holds the high-severity heat warning and the increase-irrigation task. -/
theorem agriculture_temperature_exclusive (th : AgricultureThresholds)
    (month : Nat) (w : WeatherData) (forecast : List ForecastDay) :
    (w.temperature ≤ th.frost_temp →
      ({ type := "danger", title := "❄️ Frost Warning"
         message := "Temperature is " ++ fmt1 w.temperature ++ "°C. Protect sensitive crops from frost damage."
         severity := "critical" } : Alert)
          ∈ (get_agriculture_recommendations th month w forecast).alerts
      ∧ "Cover sensitive crops or use frost protection methods"
          ∈ (get_agriculture_recommendations th month w forecast).tasks
      ∧ ∀ a ∈ (get_agriculture_recommendations th month w forecast).alerts,
          a.title ≠ "🌡️ Heat Stress Alert")
    ∧ (¬ w.temperature ≤ th.frost_temp → w.temperature ≥ th.heat_stress →
      ({ type := "warning", title := "🌡️ Heat Stress Alert"
         message := "High temperature " ++ fmt1 w.temperature ++ "°C may stress crops. Ensure adequate irrigation."
         severity := "high" } : Alert)
          ∈ (get_agriculture_recommendations th month w forecast).alerts
      ∧ "Increase irrigation frequency"
          ∈ (get_agriculture_recommendations th month w forecast).tasks) := by
  constructor
  · intro hf
    refine ⟨?_, ?_, ?_⟩
    · simp only [get_agriculture_recommendations, List.mem_append]
      exact Or.inl (Or.inr (by simp [ag_temp_alerts, if_pos hf]))
    · simp only [get_agriculture_recommendations, List.mem_append]
      exact Or.inl (Or.inl (Or.inr (by simp [ag_temp_tasks, if_pos hf])))
    · intro a ha
      simp only [get_agriculture_recommendations, List.mem_append] at ha
      rcases ha with (hw | ht) | hh
      · rw [mem_ag_wind_alerts_title hw]; decide
      · rw [show a.title = "❄️ Frost Warning" by
          simp only [ag_temp_alerts, if_pos hf] at ht
          simp only [List.mem_singleton] at ht
          rw [ht]]
        decide
      · rw [mem_ag_humidity_alerts_title hh]; decide
  · intro hnf hh
    constructor
    · simp only [get_agriculture_recommendations, List.mem_append]
      exact Or.inl (Or.inr (by simp [ag_temp_alerts, if_neg hnf, if_pos hh]))
    · simp only [get_agriculture_recommendations, List.mem_append]
      exact Or.inl (Or.inl (Or.inr (by simp [ag_temp_tasks, if_neg hnf, if_pos hh])))

/-- Witness for C1 at the frost snapshot (temperature -5, default
thresholds): the frost branch fires and no heat-stress alert appears. -/
theorem agriculture_temperature_exclusive_witness :
    frost_snapshot.temperature ≤ AGRICULTURE_THRESHOLDS.frost_temp
    ∧ "Cover sensitive crops or use frost protection methods"
        ∈ (get_agriculture_recommendations AGRICULTURE_THRESHOLDS 1 frost_snapshot []).tasks
    ∧ ∀ a ∈ (get_agriculture_recommendations AGRICULTURE_THRESHOLDS 1 frost_snapshot []).alerts,
        a.title ≠ "🌡️ Heat Stress Alert" := by
  refine ⟨by decide, ?_, ?_⟩
  · exact ((agriculture_temperature_exclusive AGRICULTURE_THRESHOLDS 1 frost_snapshot []).1
      (by decide)).2.1
  · exact ((agriculture_temperature_exclusive AGRICULTURE_THRESHOLDS 1 frost_snapshot []).1
      (by decide)).2.2

/-- The regular-irrigation task can only come from the rain rule. -/
theorem regular_task_only_from_rain {th : AgricultureThresholds} {month : Nat}
    {w : WeatherData} {forecast : List ForecastDay}
    (h : "Regular irrigation recommended"
        ∈ (get_agriculture_recommendations th month w forecast).tasks) :
    "Regular irrigation recommended" ∈ ag_rain_tasks th w forecast := by
  simp only [get_agriculture_recommendations, List.mem_append] at h
  rcases h with ((hw | ht) | hr) | hh
  · rcases mem_ag_wind_tasks hw with h | h <;> exact absurd h (by decide)
  · rcases mem_ag_temp_tasks ht with h | h <;> exact absurd h (by decide)
  · exact hr
  · exact absurd (mem_ag_humidity_tasks hh) (by decide)

/-- The skip-irrigation task can only come from the rain rule. -/
theorem skip_task_only_from_rain {th : AgricultureThresholds} {month : Nat}
    {w : WeatherData} {forecast : List ForecastDay}
    (h : "Skip irrigation today - sufficient rainfall"
        ∈ (get_agriculture_recommendations th month w forecast).tasks) :
    "Skip irrigation today - sufficient rainfall" ∈ ag_rain_tasks th w forecast := by
  simp only [get_agriculture_recommendations, List.mem_append] at h
  rcases h with ((hw | ht) | hr) | hh
  · rcases mem_ag_wind_tasks hw with h | h <;> exact absurd h (by decide)
  · rcases mem_ag_temp_tasks ht with h | h <;> exact absurd h (by decide)
  · exact hr
  · exact absurd (mem_ag_humidity_tasks hh) (by decide)

/-- If the rain rule itself emits no upcoming-rain advisory, no
recommendation in the bundle announces upcoming rain. -/
theorem no_upcoming_outside_rain {th : AgricultureThresholds} {month : Nat}
    {w : WeatherData} {forecast : List ForecastDay}
    (hr : ∀ r ∈ ag_rain_recs th w forecast, ¬ mentions_upcoming_rain r) :
    ∀ r ∈ (get_agriculture_recommendations th month w forecast).recommendations,
      ¬ mentions_upcoming_rain r := by
  intro r h
  simp only [get_agriculture_recommendations, List.mem_append] at h
  rcases h with (h1 | h2) | h3
  · exact hr r h1
  · rw [mem_ag_humidity_recs h2]
    unfold mentions_upcoming_rain
    decide
  · exact crop_advice_no_upcoming month r h3

/-- Counterexample for C2 as stated: with rain exactly 0 and no forecast
supplied, the code emits neither the regular-irrigation task nor an
upcoming-rain advisory, so it is false that exactly one of the two
appears. -/
theorem agriculture_rain_no_forecast_counterexample :
    ¬ ((("Regular irrigation recommended"
          ∈ (get_agriculture_recommendations AGRICULTURE_THRESHOLDS 6 calm_snapshot []).tasks)
        ∨ (∃ r ∈ (get_agriculture_recommendations AGRICULTURE_THRESHOLDS 6 calm_snapshot []).recommendations,
            strContains r ("Plan irrigation accordingly") = true))
      ∧ ¬ (("Regular irrigation recommended"
          ∈ (get_agriculture_recommendations AGRICULTURE_THRESHOLDS 6 calm_snapshot []).tasks)
        ∧ (∃ r ∈ (get_agriculture_recommendations AGRICULTURE_THRESHOLDS 6 calm_snapshot []).recommendations,
            strContains r ("Plan irrigation accordingly") = true))) := by
  decide

/-- Claim C2 (amended): the rain rule is a three-way branch on
rain = rain_1h + rain_3h. Above the threshold it emits the heavy-rain
advisory and the skip-irrigation task; for 0 < rain at or below the
threshold it emits the light-rain advisory only; for rain == 0 with a
non-empty forecast exactly one of the upcoming-rain advisory (three-day
sum above 5 mm) and the regular-irrigation task appears; for rain == 0
with no forecast supplied, neither appears. -/
theorem agriculture_rain_rule (th : AgricultureThresholds) (month : Nat)
    (w : WeatherData) (forecast : List ForecastDay) :
    (w.rain_1h + w.rain_3h > th.rain_threshold →
      "Heavy rainfall detected (" ++ fmt1 (w.rain_1h + w.rain_3h) ++ "mm). Delay irrigation."
          ∈ (get_agriculture_recommendations th month w forecast).recommendations
      ∧ "Skip irrigation today - sufficient rainfall"
          ∈ (get_agriculture_recommendations th month w forecast).tasks
      ∧ "Regular irrigation recommended"
          ∉ (get_agriculture_recommendations th month w forecast).tasks)
    ∧ (¬ w.rain_1h + w.rain_3h > th.rain_threshold → w.rain_1h + w.rain_3h > 0 →
      "Light rainfall (" ++ fmt1 (w.rain_1h + w.rain_3h) ++ "mm) expected. Monitor soil moisture."
          ∈ (get_agriculture_recommendations th month w forecast).recommendations
      ∧ "Skip irrigation today - sufficient rainfall"
          ∉ (get_agriculture_recommendations th month w forecast).tasks
      ∧ "Regular irrigation recommended"
          ∉ (get_agriculture_recommendations th month w forecast).tasks)
    ∧ (¬ w.rain_1h + w.rain_3h > th.rain_threshold → ¬ w.rain_1h + w.rain_3h > 0 →
       forecast ≠ [] → upcoming_rain forecast > 5 →
      "Rain expected in next 3 days (" ++ fmt1 (upcoming_rain forecast) ++ "mm). Plan irrigation accordingly."
          ∈ (get_agriculture_recommendations th month w forecast).recommendations
      ∧ "Regular irrigation recommended"
          ∉ (get_agriculture_recommendations th month w forecast).tasks)
    ∧ (¬ w.rain_1h + w.rain_3h > th.rain_threshold → ¬ w.rain_1h + w.rain_3h > 0 →
       forecast ≠ [] → ¬ upcoming_rain forecast > 5 →
      "Regular irrigation recommended"
          ∈ (get_agriculture_recommendations th month w forecast).tasks
      ∧ ∀ r ∈ (get_agriculture_recommendations th month w forecast).recommendations,
          ¬ mentions_upcoming_rain r)
    ∧ (¬ w.rain_1h + w.rain_3h > th.rain_threshold → ¬ w.rain_1h + w.rain_3h > 0 →
       forecast = [] →
      "Regular irrigation recommended"
          ∉ (get_agriculture_recommendations th month w forecast).tasks
      ∧ "Skip irrigation today - sufficient rainfall"
          ∉ (get_agriculture_recommendations th month w forecast).tasks
      ∧ ∀ r ∈ (get_agriculture_recommendations th month w forecast).recommendations,
          ¬ mentions_upcoming_rain r) := by
  refine ⟨?_, ?_, ?_, ?_, ?_⟩
  · intro h1
    refine ⟨?_, ?_, ?_⟩
    · simp only [get_agriculture_recommendations, List.mem_append]
      exact Or.inl (Or.inl (by simp [ag_rain_recs, if_pos h1]))
    · simp only [get_agriculture_recommendations, List.mem_append]
      exact Or.inl (Or.inr (by simp [ag_rain_tasks, if_pos h1]))
    · intro hmem
      have hr := regular_task_only_from_rain hmem
      simp only [ag_rain_tasks, if_pos h1, List.mem_singleton] at hr
      exact absurd hr (by decide)
  · intro h1 h2
    refine ⟨?_, ?_, ?_⟩
    · simp only [get_agriculture_recommendations, List.mem_append]
      exact Or.inl (Or.inl (by simp [ag_rain_recs, if_neg h1, if_pos h2]))
    · intro hmem
      have hr := skip_task_only_from_rain hmem
      simp only [ag_rain_tasks, if_neg h1, if_pos h2] at hr
      exact absurd hr (List.not_mem_nil _)
    · intro hmem
      have hr := regular_task_only_from_rain hmem
      simp only [ag_rain_tasks, if_neg h1, if_pos h2] at hr
      exact absurd hr (List.not_mem_nil _)
  · intro h1 h2 h3 h4
    have he : forecast.isEmpty = false := by
      cases forecast with
      | nil => exact absurd rfl h3
      | cons a t => rfl
    constructor
    · simp only [get_agriculture_recommendations, List.mem_append]
      exact Or.inl (Or.inl (by simp [ag_rain_recs, if_neg h1, if_neg h2, he, if_pos h4]))
    · intro hmem
      have hr := regular_task_only_from_rain hmem
      simp only [ag_rain_tasks, if_neg h1, if_neg h2, he, if_pos h4] at hr
      exact absurd hr (by simp)
  · intro h1 h2 h3 h4
    have he : forecast.isEmpty = false := by
      cases forecast with
      | nil => exact absurd rfl h3
      | cons a t => rfl
    constructor
    · simp only [get_agriculture_recommendations, List.mem_append]
      exact Or.inl (Or.inr (by simp [ag_rain_tasks, if_neg h1, if_neg h2, he, if_neg h4]))
    · apply no_upcoming_outside_rain
      intro r hrr
      simp only [ag_rain_recs, if_neg h1, if_neg h2, he, if_neg h4] at hrr
      exact absurd hrr (by simp)
  · intro h1 h2 h3
    subst h3
    refine ⟨?_, ?_, ?_⟩
    · intro hmem
      have hr := regular_task_only_from_rain hmem
      simp only [ag_rain_tasks, if_neg h1, if_neg h2] at hr
      exact absurd hr (by simp)
    · intro hmem
      have hr := skip_task_only_from_rain hmem
      simp only [ag_rain_tasks, if_neg h1, if_neg h2] at hr
      exact absurd hr (by simp)
    · apply no_upcoming_outside_rain
      intro r hrr
      simp only [ag_rain_recs, if_neg h1, if_neg h2] at hrr
      exact absurd hrr (by simp)

/-- Witness for C2 (amended) at the heavy-rain snapshot: 12 mm of trailing
rain exceeds the 10 mm default threshold, so the skip-irrigation task
appears and the regular-irrigation task does not. -/
theorem agriculture_rain_rule_witness :
    heavy_rain_snapshot.rain_1h + heavy_rain_snapshot.rain_3h
        > AGRICULTURE_THRESHOLDS.rain_threshold
    ∧ "Skip irrigation today - sufficient rainfall"
        ∈ (get_agriculture_recommendations AGRICULTURE_THRESHOLDS 6 heavy_rain_snapshot []).tasks
    ∧ "Regular irrigation recommended"
        ∉ (get_agriculture_recommendations AGRICULTURE_THRESHOLDS 6 heavy_rain_snapshot []).tasks := by
  refine ⟨by decide, ?_, ?_⟩
  · exact ((agriculture_rain_rule AGRICULTURE_THRESHOLDS 6 heavy_rain_snapshot []).1
      (by decide)).2.1
  · exact ((agriculture_rain_rule AGRICULTURE_THRESHOLDS 6 heavy_rain_snapshot []).1
      (by decide)).2.2

/-- Claim C4: for every non-empty forecast the travel outlook is poor when
total rain exceeds 20 mm or the maximal daily wind maximum exceeds
50 km/h, excellent when total rain is below 5 mm and the mean daily
average temperature lies in 15..28 °C, and fair otherwise. -/
theorem travel_outlook_classification (th : TravelThresholds) (w : WeatherData)
    (forecast : List ForecastDay) (h : forecast ≠ []) :
    (get_travel_recommendations th w forecast).travel_outlook =
      if (forecast.map (·.total_rain)).sum > 20
          ∨ qmax (forecast.map (·.wind_speed_max)) > 50 then "poor"
      else if (forecast.map (·.total_rain)).sum < 5
          ∧ 15 ≤ (forecast.map (·.temp_avg)).sum / (forecast.length : ℚ)
          ∧ (forecast.map (·.temp_avg)).sum / (forecast.length : ℚ) ≤ 28 then "excellent"
      else "fair" := by
  have he : forecast.isEmpty = false := by
    cases forecast with
    | nil => exact absurd rfl h
    | cons a t => rfl
  simp only [get_travel_recommendations, analyze_forecast_for_travel, he,
    Bool.false_eq_true, if_false]
  split_ifs <;> rfl

/-- Witness for C4: a single forecast day with 25 mm of rain puts the
outlook in the poor branch. -/
theorem travel_outlook_classification_witness :
    (get_travel_recommendations TRAVEL_THRESHOLDS calm_snapshot [rainy_day]).travel_outlook
      = "poor" :=
  (travel_outlook_classification TRAVEL_THRESHOLDS calm_snapshot [rainy_day]
    (by decide)).trans (by decide)

/-- A date present in the grouping key list has a nonempty reading group. -/
theorem readings_on_ne_nil {l : List Reading} {d : Nat} (h : d ∈ dates_of l) :
    readings_on l d ≠ [] := by
  unfold dates_of at h
  rcases List.mem_map.1 (List.mem_dedup.1 h) with ⟨r, hr, rfl⟩
  have hmem : r ∈ readings_on l r.date := List.mem_filter.2 ⟨hr, by simp⟩
  exact List.ne_nil_of_mem hmem

/-- Membership in the truncated sorted date list implies membership in the
grouping key list. -/
theorem mem_take_sort_dates {l : List Reading} {days d : Nat}
    (h : d ∈ (List.insertionSort (· ≤ ·) (dates_of l)).take days) :
    d ∈ dates_of l :=
  (List.perm_insertionSort (· ≤ ·) (dates_of l)).mem_iff.1 (List.mem_of_mem_take h)

/-- The dates of the aggregated entries are exactly the sorted, truncated
grouping keys. -/
theorem map_date_parse_forecast (l : List Reading) (days : Nat) :
    (parse_forecast l days).map (·.date)
      = (List.insertionSort (· ≤ ·) (dates_of l)).take days := by
  unfold parse_forecast
  rw [List.map_map]
  have hc : ((fun fd : ForecastDay => fd.date)
      ∘ fun d => aggregate_day d (readings_on l d)) = id := by
    funext d; rfl
  rw [hc, List.map_id]

/-- Claim C6: every aggregated entry summarizes exactly the readings of
its calendar date — min/max are attained bounds, averages are arithmetic
means, rain and snow are sums, and the description is sampled at the
midpoint index of the group; a degenerate one-reading day aggregates to
itself; and eight three-hourly readings spanning two calendar days give
exactly two entries. -/
theorem parse_forecast_daily_stats :
    (∀ (l : List Reading) (days : Nat) (fd : ForecastDay),
        fd ∈ parse_forecast l days → day_stats_ok l fd)
    ∧ (parse_forecast sample_readings 5).length = 2
    ∧ parse_forecast [solo_reading] 1 =
        [{ date := 3, temp_min := 21, temp_max := 21, temp_avg := 21
           humidity_avg := 40, wind_speed_max := 6, total_rain := 0, total_snow := 0
           description := "solo", icon := "01d", details := [solo_reading] }] := by
  refine ⟨?_, by decide, by decide⟩
  intro l days fd hmem
  unfold parse_forecast at hmem
  rcases List.mem_map.1 hmem with ⟨d, hd, rfl⟩
  have hg : readings_on l d ≠ [] := readings_on_ne_nil (mem_take_sort_dates hd)
  have hdate : (aggregate_day d (readings_on l d)).date = d := rfl
  unfold day_stats_ok
  rw [hdate]
  have hmapne : (readings_on l d).map (·.temperature) ≠ [] := by
    simpa [List.map_eq_nil_iff] using hg
  have hwindne : (readings_on l d).map (·.wind_speed) ≠ [] := by
    simpa [List.map_eq_nil_iff] using hg
  refine ⟨hg, ?_, ?_, ?_, ?_, rfl, rfl, ?_, ?_, rfl, rfl, rfl, rfl⟩
  · exact qmin_mem _ hmapne
  · exact fun x hx => qmin_le _ x hx
  · exact qmax_mem _ hmapne
  · exact fun x hx => le_qmax _ x hx
  · exact qmax_mem _ hwindne
  · exact fun x hx => le_qmax _ x hx

/-- Witness for C6: the first aggregated day of the eight sample readings
is an element of the result and satisfies the daily aggregation contract. -/
theorem parse_forecast_daily_stats_witness :
    sample_day0 ∈ parse_forecast sample_readings 5
    ∧ day_stats_ok sample_readings sample_day0 :=
  ⟨by decide, parse_forecast_daily_stats.1 sample_readings 5 sample_day0 (by decide)⟩

/-- Claim C7: the aggregated forecast is sorted by date ascending before
truncation, its length is bounded by the requested day count and by the
number of distinct dates in the input, and requesting three days of a
scrambled five-day input returns exactly the earliest three dates. -/
theorem parse_forecast_sorted_truncated :
    (∀ (l : List Reading) (days : Nat),
        List.Sorted (· ≤ ·) ((parse_forecast l days).map (·.date))
        ∧ (parse_forecast l days).length ≤ days
        ∧ (parse_forecast l days).length ≤ (dates_of l).length)
    ∧ (parse_forecast scrambled_readings 3).map (·.date) = [1, 2, 3] := by
  refine ⟨?_, by decide⟩
  intro l days
  have hmap := map_date_parse_forecast l days
  have hlen : (parse_forecast l days).length
      = ((List.insertionSort (· ≤ ·) (dates_of l)).take days).length := by
    rw [← List.length_map ((parse_forecast l days)) (·.date), hmap]
  refine ⟨?_, ?_, ?_⟩
  · rw [hmap]
    exact List.Pairwise.sublist (List.take_sublist _ _)
      (List.sorted_insertionSort (· ≤ ·) (dates_of l))
  · rw [hlen, List.length_take]
    exact min_le_left _ _
  · rw [hlen, List.length_take]
    have := (List.perm_insertionSort (· ≤ ·) (dates_of l)).length_eq
    rw [← this]
    exact min_le_right _ _
